import Mathlib

/-!
Shallow embedding of the idempotent bulk-load pipeline of the
brief_data_eng_2025 repository, together with proofs about it.

The embedding covers:
* the single-file importers (src/src/import_to_postgres.py,
  src/src/import_to_duckdb.py): the ledger lookup is_file_imported,
  the transactional per-file import import_parquet, and the batch
  orchestrator import_all_parquet_files;
* the chunked DuckDB-to-Postgres loader
  (src/src/chris_import_to_postgres.py.py): SchemaMapper.to_postgres,
  DuckDBReader.read_chunk, PostgresWriter.copy_chunk, Loader.load_table,
  and the per-cell CSV encoding used by COPY with NULL as empty string;
* the downloader and the /pipeline/run route (src/src/download_data.py,
  src/api/app/routes.py);
* the CRUD update path (src/api/app/services.py TaxiTripService.update_trip).

Database effects are modelled by explicit state passing: the database state
is a record holding the destination table (a list of rows) and the
ledger table import_log (a list of entries).  The behaviour of the external
database driver (which query raises an exception, if any) is an oracle
supplied as data: a fallible ledger read is an Except value, and each
source file carries an optional load failure describing the exception the
driver would raise while that file's rows are being written.  Transaction
semantics (BEGIN / COMMIT / ROLLBACK, and the context manager
engine.begin) are the standard ones: a committed transaction applies all
of its writes, a rolled-back transaction applies none.
-/

/-- One row of the import_log ledger table, as created by
_initialize_database in both importers:
file_name TEXT PRIMARY KEY, rows_imported BIGINT (the import_date column
is a database-supplied timestamp and carries no program logic, so it is
omitted). -/
structure LedgerEntry where
  file_name : String
  rows_imported : Nat
deriving DecidableEq, Repr

/-- The database state owned by one importer: the destination table
yellow_taxi_trips and the ledger table import_log. -/
structure DBState (Row : Type) where
  yellow_taxi_trips : List Row
  import_log : List LedgerEntry
deriving DecidableEq, Repr

/-- The kind of exception the database driver raises, mirroring the error
taxonomy of spec section 7.  The importer code catches every exception
uniformly (except SQLAlchemyError / duckdb.Error / Exception), so the kind
never influences control flow; it exists so that theorems can ask whether
the kind is observable in any output. -/
inductive ErrKind where
  | sourceRead
  | schemaMismatch
  | destWrite
deriving DecidableEq, Repr

/-- A source parquet file as the importer sees it: its filename, the rows
it holds, and the environment oracle load_failure saying whether the
database driver raises an exception while this file's rows are being
inserted (none: the insert succeeds). -/
structure SourceFile (Row : Type) where
  name : String
  rows : List Row
  load_failure : Option ErrKind
deriving DecidableEq, Repr

/-- PostgresImporter.is_file_imported / DuckDBImporter.is_file_imported:
query the import_log for the filename; the query result is fallible
(the code wraps it in try/except).  On a driver error both implementations
print to stderr and return False; on success they report whether a ledger
row with this file_name exists (SELECT 1 ... .first() is not None in the
Postgres version, COUNT(1) > 0 in the DuckDB version). -/
def is_file_imported (queryResult : Except String (List LedgerEntry))
    (filename : String) : Bool :=
  match queryResult with
  | Except.error _ => false
  | Except.ok entries => entries.any (fun e => e.file_name == filename)

/-- PostgresImporter.import_parquet / DuckDBImporter.import_parquet: skip
(returning success) if the ledger already lists the file; otherwise, in
one transaction: count the destination rows, append the file's rows,
count again, and insert the ledger row with rows_imported equal to the
difference of the two counts.  If the driver raises mid-transfer the
except branch rolls the transaction back (the DuckDB version issues
ROLLBACK explicitly, the Postgres version leaves the engine.begin context
manager exceptionally), so the committed state is unchanged, and the
method returns False. -/
def import_parquet {Row : Type} (st : DBState Row) (f : SourceFile Row) :
    DBState Row × Bool :=
  if is_file_imported (Except.ok st.import_log) f.name then (st, true)
  else
    match f.load_failure with
    | some _ => (st, false)
    | none =>
      let count_before := st.yellow_taxi_trips.length
      let trips := st.yellow_taxi_trips ++ f.rows
      let count_after := trips.length
      let rows_imported := count_after - count_before
      ({ yellow_taxi_trips := trips,
         import_log := st.import_log ++
           [{ file_name := f.name, rows_imported := rows_imported }] },
       true)

/-- PostgresImporter.import_all_parquet_files /
DuckDBImporter.import_all_parquet_files: walk the list of parquet files in
order, remember whether each was already imported, run import_parquet on
it, and count the files that were newly imported (success and not
previously in the ledger).  A file's failure never stops the walk. -/
def import_all_parquet_files {Row : Type} (st : DBState Row) :
    List (SourceFile Row) → DBState Row × Nat
  | [] => (st, 0)
  | f :: fs =>
    let was_already_imported := is_file_imported (Except.ok st.import_log) f.name
    let res := import_parquet st f
    let rest := import_all_parquet_files res.1 fs
    (rest.1, (if res.2 && !was_already_imported then 1 else 0) + rest.2)

/-- Python str.upper() on the characters of a string (the strings this
program uppercases are ASCII, for which Char.toUpper agrees with
Python). -/
def pyUpper (s : String) : String :=
  String.mk (s.data.map Char.toUpper)

/-- Python str.startswith(p): p's characters are a prefix of s's. -/
def pyStartsWith (s p : String) : Bool :=
  p.data.isPrefixOf s.data

namespace SchemaMapper

/-- SchemaMapper.DUCK_TO_PG (src/src/chris_import_to_postgres.py.py): the
fixed DuckDB-type to Postgres-type lookup table, in source order. -/
def DUCK_TO_PG : List (String × String) :=
  [("BOOLEAN", "BOOLEAN"),
   ("TINYINT", "SMALLINT"),
   ("SMALLINT", "SMALLINT"),
   ("INTEGER", "INTEGER"),
   ("BIGINT", "BIGINT"),
   ("HUGEINT", "NUMERIC(38,0)"),
   ("REAL", "REAL"),
   ("FLOAT", "REAL"),
   ("DOUBLE", "DOUBLE PRECISION"),
   ("DECIMAL", "NUMERIC"),
   ("NUMERIC", "NUMERIC"),
   ("VARCHAR", "TEXT"),
   ("BLOB", "BYTEA"),
   ("DATE", "DATE"),
   ("TIME", "TIME"),
   ("TIMESTAMP", "TIMESTAMP"),
   ("TIMESTAMPTZ", "TIMESTAMPTZ"),
   ("UUID", "UUID")]

/-- SchemaMapper.to_postgres: uppercase the source type; a parameterized
DECIMAL(p,s) or NUMERIC(p,s) is passed through unchanged; otherwise look
the base type up in DUCK_TO_PG, the default on a missed lookup being
TEXT (dict.get with default). -/
def to_postgres (duck_type : String) : String :=
  let base := pyUpper duck_type
  if pyStartsWith base "DECIMAL(" || pyStartsWith base "NUMERIC(" then base
  else ((DUCK_TO_PG.lookup base).getD "TEXT")

end SchemaMapper

namespace ChrisLoader

/-- The Postgres-side state touched by the chunked loader: the destination
table and the (never-consulted, never-written) import_log ledger.  The
ledger component records that this code path keeps no ledger at all. -/
structure PGState (Row : Type) where
  table : List Row
  import_log : List LedgerEntry
deriving DecidableEq, Repr

/-- DuckDBReader.read_chunk: SELECT * FROM source LIMIT limit OFFSET
offset, i.e. the slice of limit rows starting at offset. -/
def read_chunk {Row : Type} (source : List Row) (limit offset : Nat) :
    List Row :=
  (source.drop offset).take limit

/-- PostgresWriter.copy_chunk: an empty frame returns at once; otherwise
the chunk's rows are appended via COPY on a freshly opened connection and
that connection commits immediately — each chunk is its own transaction. -/
def copy_chunk {Row : Type} (st : PGState Row) (df : List Row) :
    PGState Row :=
  if df.isEmpty then st else { st with table := st.table ++ df }

/-- The body of Loader.load_table's while-true loop.  Arguments chunkIdx
(how many chunks have been copied so far, used to index the failure
oracle), offset and total mirror the loop variables; failAt is the
environment oracle naming the chunk whose COPY raises (none: no failure).
One iteration computes the limit from max_rows, stops on a zero limit or
an empty chunk, copies the chunk (each copy commits on its own
connection), and otherwise advances offset and total by the chunk length,
stopping early once total reaches max_rows.  When the COPY of chunk
failAt raises, the loop aborts by exception: the chunks already copied
stay committed and the Bool result is false. -/
def load_loop {Row : Type} (source : List Row) (chunk_size : Nat)
    (max_rows : Option Nat) (failAt : Option Nat)
    (chunkIdx offset total : Nat) (st : PGState Row) : PGState Row × Bool :=
  let lim := match max_rows with
    | none => chunk_size
    | some m => min chunk_size (m - total)
  if lim = 0 then (st, true)
  else
    let df := read_chunk source lim offset
    if hdf : df.isEmpty then (st, true)
    else if failAt = some chunkIdx then (st, false)
    else
      let st2 := copy_chunk st df
      let n := df.length
      if (match max_rows with | none => false | some m => m ≤ total + n) then
        (st2, true)
      else
        load_loop source chunk_size max_rows failAt (chunkIdx + 1)
          (offset + n) (total + n) st2
termination_by source.length - offset
decreasing_by
  have hlt : offset < source.length := by
    by_contra hge
    have : source.drop offset = [] := List.drop_eq_nil_of_le (Nat.le_of_not_lt hge)
    simp [df, read_chunk, this] at hdf
  have hne : df ≠ [] := by
    intro h0
    rw [h0] at hdf
    exact hdf rfl
  exact Nat.sub_lt_sub_left hlt (Nat.lt_add_of_pos_right (List.length_pos.mpr hne))

/-- Loader.load_table: ensure the destination table exists (schema sync,
a no-op on the state modelled here), then stream chunks from offset 0. -/
def load_table {Row : Type} (source : List Row) (chunk_size : Nat)
    (max_rows : Option Nat) (failAt : Option Nat) (st : PGState Row) :
    PGState Row × Bool :=
  load_loop source chunk_size max_rows failAt 0 0 0 st

end ChrisLoader

namespace CopyCsv

/-- One non-null cell value of a row batch, as pandas hands it to
PostgresWriter.copy_chunk: either a number or a string.  A full cell is
Option Cell, with none standing for a missing value (None / NaN in the
frame). -/
inductive Cell where
  | intVal (n : Int)
  | strVal (s : String)
deriving DecidableEq, Repr

/-- Whether pandas to_csv must quote a string field (QUOTE_MINIMAL: the
field contains the delimiter, a quote, or a line break). -/
def needs_quoting (s : String) : Bool :=
  s.data.any (fun c => c == ',' || c == '"' || c == '\n' || c == '\r')

/-- CSV-quote a string field: wrap in double quotes, doubling each inner
double quote. -/
def quote_field (s : String) : String :=
  "\"" ++ String.mk (s.data.flatMap (fun c =>
    if c == '"' then ['"', '"'] else [c])) ++ "\""

/-- The field that df.to_csv (as called by PostgresWriter.copy_chunk,
after df.where(pd.notnull(df), None) has normalised every missing marker
to None) writes for one cell: a missing cell becomes the empty field
(the default na_rep is the empty string), a number its decimal text, a
string itself, quoted only when needed. -/
def csv_field (c : Option Cell) : String :=
  match c with
  | none => ""
  | some (Cell.intVal n) => toString n
  | some (Cell.strVal s) => if needs_quoting s then quote_field s else s

/-- How the destination reads one field of the stream produced by
copy_chunk: COPY ... WITH (FORMAT CSV, NULL '') turns the empty unquoted
field into a relational NULL and keeps any other field as a (dequoted)
text value, which the column's type then interprets.  The result is the
stored cell: none is SQL NULL. -/
def copy_parse_field (s : String) : Option String :=
  if s = "" then none
  else if pyStartsWith s "\"" then
    some (String.mk ((s.data.drop 1).take (s.data.length - 2)))
  else some s

/-- The destination cells that one source row of copy_chunk's frame ends
up as, after the CSV encode of to_csv and the COPY CSV decode. -/
def copy_row (row : List (Option Cell)) : List (Option String) :=
  (row.map csv_field).map copy_parse_field

end CopyCsv

namespace NYCTaxiDataDownloader

/-- The filesystem and network environment the downloader runs against:
whether the file for a month already exists locally, and whether fetching
it over the network would succeed. -/
structure DownloadEnv where
  file_exists : Nat → Bool
  fetch_ok : Nat → Bool

/-- NYCTaxiDataDownloader.get_file_path: the per-month filename pattern
yellow_tripdata_2025-MM.parquet (month zero-padded to two digits). -/
def get_file_name (month : Nat) : String :=
  "yellow_tripdata_2025-" ++
    (if month < 10 then "0" ++ toString month else toString month) ++
    ".parquet"

/-- NYCTaxiDataDownloader.download_month: skip the fetch when the local
file already exists (returning True); otherwise the result is the
network's success (on a request failure any partial file is deleted and
False is returned). -/
def download_month (env : DownloadEnv) (month : Nat) : Bool :=
  if env.file_exists month then true else env.fetch_ok month

/-- NYCTaxiDataDownloader.download_all_available: try months 1..12 in
order and collect the filenames of the months obtained. -/
def download_all_available (env : DownloadEnv) : List String :=
  ((List.range 12).map (fun i => i + 1)).filterMap
    (fun m => if download_month env m then some (get_file_name m) else none)

end NYCTaxiDataDownloader

/-- The response body built by the /pipeline/run route
(src/api/app/routes.py run_pipeline): a fixed message plus the list the
downloader returned.  It has no field for per-file import outcomes. -/
structure PipelineRunSummary where
  message : String
  downloaded_files : List String
deriving DecidableEq, Repr

/-- routes.run_pipeline: download everything available, then run the
importer of all parquet files over those of the data directory
(the files argument), and answer with the message and the downloaded
list.  The count import_all_parquet_files returns is discarded. -/
def run_pipeline {Row : Type} (env : NYCTaxiDataDownloader.DownloadEnv)
    (st : DBState Row) (files : List (SourceFile Row)) :
    PipelineRunSummary × DBState Row :=
  let downloaded := NYCTaxiDataDownloader.download_all_available env
  let res := import_all_parquet_files st files
  ({ message := "Pipeline executed", downloaded_files := downloaded }, res.1)

namespace TaxiTripService

/-- One row of the yellow_taxi_trips ORM model (src/api/app/models.py):
an autoincremented primary key and twenty nullable payload columns.
Timestamp columns are modelled as abstract instants (Int) and
floating-point columns by an exact carrier (Rat); the CRUD update path
only stores and returns these values, so any carrier with decidable
equality represents them faithfully. -/
structure YellowTaxiTrip where
  id : Int
  vendor_id : Option Int
  tpep_pickup_datetime : Option Int
  tpep_dropoff_datetime : Option Int
  passenger_count : Option Int
  trip_distance : Option Rat
  ratecode_id : Option Int
  store_and_fwd_flag : Option String
  pu_location_id : Option Int
  do_location_id : Option Int
  payment_type : Option Int
  fare_amount : Option Rat
  extra : Option Rat
  mta_tax : Option Rat
  tip_amount : Option Rat
  tolls_amount : Option Rat
  improvement_surcharge : Option Rat
  total_amount : Option Rat
  congestion_surcharge : Option Rat
  airport_fee : Option Rat
  cbd_congestion_fee : Option Rat
deriving DecidableEq, Repr

/-- The pydantic update payload TaxiTripUpdate (src/api/app/schemas.py):
every column is optional with default None, and model_dump with
exclude_unset only keeps the fields the request actually set.  Each field
is therefore doubly optional: the outer layer is set-versus-unset (none:
absent from the dump), the inner layer the nullable column value. -/
structure TaxiTripUpdate where
  vendor_id : Option (Option Int)
  tpep_pickup_datetime : Option (Option Int)
  tpep_dropoff_datetime : Option (Option Int)
  passenger_count : Option (Option Int)
  trip_distance : Option (Option Rat)
  ratecode_id : Option (Option Int)
  store_and_fwd_flag : Option (Option String)
  pu_location_id : Option (Option Int)
  do_location_id : Option (Option Int)
  payment_type : Option (Option Int)
  fare_amount : Option (Option Rat)
  extra : Option (Option Rat)
  mta_tax : Option (Option Rat)
  tip_amount : Option (Option Rat)
  tolls_amount : Option (Option Rat)
  improvement_surcharge : Option (Option Rat)
  total_amount : Option (Option Rat)
  congestion_surcharge : Option (Option Rat)
  airport_fee : Option (Option Rat)
  cbd_congestion_fee : Option (Option Rat)
deriving DecidableEq, Repr

/-- The update payload with no field set: model_dump(exclude_unset=True)
over it is empty. -/
def emptyUpdate : TaxiTripUpdate :=
  ⟨none, none, none, none, none, none, none, none, none, none,
   none, none, none, none, none, none, none, none, none, none⟩

/-- The setattr loop of TaxiTripService.update_trip: each field present in
trip.model_dump(exclude_unset=True) overwrites the stored column; every
absent field leaves the stored column as it was. -/
def apply_trip_update (t : YellowTaxiTrip) (p : TaxiTripUpdate) :
    YellowTaxiTrip :=
  { id := t.id
    vendor_id := p.vendor_id.getD t.vendor_id
    tpep_pickup_datetime := p.tpep_pickup_datetime.getD t.tpep_pickup_datetime
    tpep_dropoff_datetime := p.tpep_dropoff_datetime.getD t.tpep_dropoff_datetime
    passenger_count := p.passenger_count.getD t.passenger_count
    trip_distance := p.trip_distance.getD t.trip_distance
    ratecode_id := p.ratecode_id.getD t.ratecode_id
    store_and_fwd_flag := p.store_and_fwd_flag.getD t.store_and_fwd_flag
    pu_location_id := p.pu_location_id.getD t.pu_location_id
    do_location_id := p.do_location_id.getD t.do_location_id
    payment_type := p.payment_type.getD t.payment_type
    fare_amount := p.fare_amount.getD t.fare_amount
    extra := p.extra.getD t.extra
    mta_tax := p.mta_tax.getD t.mta_tax
    tip_amount := p.tip_amount.getD t.tip_amount
    tolls_amount := p.tolls_amount.getD t.tolls_amount
    improvement_surcharge := p.improvement_surcharge.getD t.improvement_surcharge
    total_amount := p.total_amount.getD t.total_amount
    congestion_surcharge := p.congestion_surcharge.getD t.congestion_surcharge
    airport_fee := p.airport_fee.getD t.airport_fee
    cbd_congestion_fee := p.cbd_congestion_fee.getD t.cbd_congestion_fee }

/-- The query db.query(YellowTaxiTrip).filter(id == trip_id).first():
the first stored row whose primary key matches. -/
def find_trip (db : List YellowTaxiTrip) (trip_id : Int) :
    Option YellowTaxiTrip :=
  db.find? (fun t => t.id == trip_id)

/-- Committing the mutation of the object first() returned: the first row
with the matching primary key is replaced, everything else is stored
unchanged. -/
def replace_trip : List YellowTaxiTrip → Int → YellowTaxiTrip →
    List YellowTaxiTrip
  | [], _, _ => []
  | t :: ts, trip_id, t2 =>
    if t.id == trip_id then t2 :: ts else t :: replace_trip ts trip_id t2

/-- TaxiTripService.update_trip: look the row up by primary key; on a
miss return None with the database untouched; on a hit apply the setattr
loop to that row, commit, and return the refreshed row.  The result pairs
the returned value with the database state after the call. -/
def update_trip (db : List YellowTaxiTrip) (trip_id : Int)
    (p : TaxiTripUpdate) : Option YellowTaxiTrip × List YellowTaxiTrip :=
  match find_trip db trip_id with
  | none => (none, db)
  | some t =>
    let t2 := apply_trip_update t p
    (some t2, replace_trip db trip_id t2)

/-- The frame property the update is claimed to have: the updated row
keeps its key, takes each present payload field's value, and keeps the
previous value of every absent field. -/
def update_respects_payload (t t2 : YellowTaxiTrip) (p : TaxiTripUpdate) :
    Prop :=
  t2.id = t.id
  ∧ (p.vendor_id = none → t2.vendor_id = t.vendor_id)
  ∧ (∀ v, p.vendor_id = some v → t2.vendor_id = v)
  ∧ (p.tpep_pickup_datetime = none → t2.tpep_pickup_datetime = t.tpep_pickup_datetime)
  ∧ (∀ v, p.tpep_pickup_datetime = some v → t2.tpep_pickup_datetime = v)
  ∧ (p.tpep_dropoff_datetime = none → t2.tpep_dropoff_datetime = t.tpep_dropoff_datetime)
  ∧ (∀ v, p.tpep_dropoff_datetime = some v → t2.tpep_dropoff_datetime = v)
  ∧ (p.passenger_count = none → t2.passenger_count = t.passenger_count)
  ∧ (∀ v, p.passenger_count = some v → t2.passenger_count = v)
  ∧ (p.trip_distance = none → t2.trip_distance = t.trip_distance)
  ∧ (∀ v, p.trip_distance = some v → t2.trip_distance = v)
  ∧ (p.ratecode_id = none → t2.ratecode_id = t.ratecode_id)
  ∧ (∀ v, p.ratecode_id = some v → t2.ratecode_id = v)
  ∧ (p.store_and_fwd_flag = none → t2.store_and_fwd_flag = t.store_and_fwd_flag)
  ∧ (∀ v, p.store_and_fwd_flag = some v → t2.store_and_fwd_flag = v)
  ∧ (p.pu_location_id = none → t2.pu_location_id = t.pu_location_id)
  ∧ (∀ v, p.pu_location_id = some v → t2.pu_location_id = v)
  ∧ (p.do_location_id = none → t2.do_location_id = t.do_location_id)
  ∧ (∀ v, p.do_location_id = some v → t2.do_location_id = v)
  ∧ (p.payment_type = none → t2.payment_type = t.payment_type)
  ∧ (∀ v, p.payment_type = some v → t2.payment_type = v)
  ∧ (p.fare_amount = none → t2.fare_amount = t.fare_amount)
  ∧ (∀ v, p.fare_amount = some v → t2.fare_amount = v)
  ∧ (p.extra = none → t2.extra = t.extra)
  ∧ (∀ v, p.extra = some v → t2.extra = v)
  ∧ (p.mta_tax = none → t2.mta_tax = t.mta_tax)
  ∧ (∀ v, p.mta_tax = some v → t2.mta_tax = v)
  ∧ (p.tip_amount = none → t2.tip_amount = t.tip_amount)
  ∧ (∀ v, p.tip_amount = some v → t2.tip_amount = v)
  ∧ (p.tolls_amount = none → t2.tolls_amount = t.tolls_amount)
  ∧ (∀ v, p.tolls_amount = some v → t2.tolls_amount = v)
  ∧ (p.improvement_surcharge = none → t2.improvement_surcharge = t.improvement_surcharge)
  ∧ (∀ v, p.improvement_surcharge = some v → t2.improvement_surcharge = v)
  ∧ (p.total_amount = none → t2.total_amount = t.total_amount)
  ∧ (∀ v, p.total_amount = some v → t2.total_amount = v)
  ∧ (p.congestion_surcharge = none → t2.congestion_surcharge = t.congestion_surcharge)
  ∧ (∀ v, p.congestion_surcharge = some v → t2.congestion_surcharge = v)
  ∧ (p.airport_fee = none → t2.airport_fee = t.airport_fee)
  ∧ (∀ v, p.airport_fee = some v → t2.airport_fee = v)
  ∧ (p.cbd_congestion_fee = none → t2.cbd_congestion_fee = t.cbd_congestion_fee)
  ∧ (∀ v, p.cbd_congestion_fee = some v → t2.cbd_congestion_fee = v)

/-- A concrete stored trip row, used to exercise the update path. -/
def sampleTrip : YellowTaxiTrip :=
  { id := 1, vendor_id := some 2, tpep_pickup_datetime := some 100,
    tpep_dropoff_datetime := some 200, passenger_count := some 1,
    trip_distance := some 5, ratecode_id := some 1,
    store_and_fwd_flag := some "N", pu_location_id := some 7,
    do_location_id := some 8, payment_type := some 1,
    fare_amount := some 10, extra := some 0, mta_tax := none,
    tip_amount := some 2, tolls_amount := some 0,
    improvement_surcharge := some 1, total_amount := some 13,
    congestion_surcharge := none, airport_fee := none,
    cbd_congestion_fee := none }

/-- A concrete update payload setting two fields (one of them explicitly
to null) and leaving the other eighteen unset. -/
def sampleUpdate : TaxiTripUpdate :=
  { emptyUpdate with
    fare_amount := some (some 20), store_and_fwd_flag := some none }

end TaxiTripService

/-! Helper lemmas shared by the claim theorems. -/

theorem drop_min_len {α : Type} (l : List α) (k : Nat) :
    l.drop (min k l.length) = l.drop k := by
  rcases Nat.le_total k l.length with h | h
  · rw [Nat.min_eq_left h]
  · rw [Nat.min_eq_right h, List.drop_eq_nil_of_le h,
      List.drop_eq_nil_of_le (Nat.le_refl _)]

theorem take_append_drop_len {α : Type} (l : List α) (k : Nat) :
    l.take k ++ l.drop (l.take k).length = l := by
  rw [List.length_take, drop_min_len, List.take_append_drop]

theorem load_loop_full {Row : Type} (source : List Row) (cs : Nat)
    (hcs : 0 < cs) :
    ∀ (fuel offset : Nat), source.length - offset ≤ fuel →
      ∀ (chunkIdx total : Nat) (st : ChrisLoader.PGState Row),
        ChrisLoader.load_loop source cs none none chunkIdx offset total st
          = ({ st with table := st.table ++ source.drop offset }, true) := by
  have hcs0 : cs ≠ 0 := Nat.pos_iff_ne_zero.mp hcs
  intro fuel
  induction fuel with
  | zero =>
    intro offset hle chunkIdx total st
    have hlen : source.length ≤ offset :=
      Nat.sub_eq_zero_iff_le.mp (Nat.le_zero.mp hle)
    have hdrop : source.drop offset = [] := List.drop_eq_nil_of_le hlen
    rw [ChrisLoader.load_loop]
    simp [ChrisLoader.read_chunk, hdrop, hcs0]
  | succ n ih =>
    intro offset hle chunkIdx total st
    by_cases hdrop : source.drop offset = []
    · rw [ChrisLoader.load_loop]
      simp [ChrisLoader.read_chunk, hdrop, hcs0]
    · have hdf_ne : ChrisLoader.read_chunk source cs offset ≠ [] := by
        simp [ChrisLoader.read_chunk, List.take_eq_nil_iff, hdrop, hcs0]
      have hdf_empty : (ChrisLoader.read_chunk source cs offset).isEmpty
          = false := by
        cases hr : ChrisLoader.read_chunk source cs offset with
        | nil => exact absurd hr hdf_ne
        | cons a l2 => rfl
      have hpos : 0 < (ChrisLoader.read_chunk source cs offset).length :=
        List.length_pos.mpr hdf_ne
      have hoff : offset < source.length := by
        by_contra hge
        exact hdrop (List.drop_eq_nil_of_le (Nat.le_of_not_lt hge))
      have hle2 : source.length -
          (offset + (ChrisLoader.read_chunk source cs offset).length) ≤ n := by
        omega
      have hcopy : ChrisLoader.copy_chunk st
          (ChrisLoader.read_chunk source cs offset)
          = { st with table := st.table ++ ChrisLoader.read_chunk source cs offset } := by
        rw [ChrisLoader.copy_chunk,
          if_neg (by rw [hdf_empty]; exact Bool.false_ne_true)]
      have htab : ChrisLoader.read_chunk source cs offset ++
          source.drop (offset + (ChrisLoader.read_chunk source cs offset).length)
          = source.drop offset := by
        rw [show source.drop
              (offset + (ChrisLoader.read_chunk source cs offset).length)
              = (source.drop offset).drop
                  (ChrisLoader.read_chunk source cs offset).length
            from (List.drop_drop _ _ _).symm]
        rw [show ChrisLoader.read_chunk source cs offset
              = (source.drop offset).take cs from rfl]
        rw [take_append_drop_len]
      rw [ChrisLoader.load_loop]
      simp [hcs0, hdf_empty, hcopy,
        ih (offset + (ChrisLoader.read_chunk source cs offset).length) hle2,
        List.append_assoc, htab]

theorem import_parquet_skip {Row : Type} (st : DBState Row)
    (f : SourceFile Row)
    (h : is_file_imported (Except.ok st.import_log) f.name = true) :
    import_parquet st f = (st, true) := by
  simp [import_parquet, h]

theorem import_parquet_success {Row : Type} (st : DBState Row)
    (f : SourceFile Row)
    (hfresh : is_file_imported (Except.ok st.import_log) f.name = false)
    (hok : f.load_failure = none) :
    import_parquet st f =
      ({ yellow_taxi_trips := st.yellow_taxi_trips ++ f.rows,
         import_log := st.import_log ++ [⟨f.name, f.rows.length⟩] }, true) := by
  simp [import_parquet, hfresh, hok, List.length_append]

theorem import_parquet_fail {Row : Type} (st : DBState Row)
    (f : SourceFile Row)
    (hfresh : is_file_imported (Except.ok st.import_log) f.name = false)
    (e : ErrKind) (hf : f.load_failure = some e) :
    import_parquet st f = (st, false) := by
  simp [import_parquet, hfresh, hf]

theorem is_file_imported_append (l1 l2 : List LedgerEntry) (name : String) :
    is_file_imported (Except.ok (l1 ++ l2)) name
      = (is_file_imported (Except.ok l1) name
          || is_file_imported (Except.ok l2) name) := by
  simp [is_file_imported, List.any_append]

/-- C9: both implementations of is_file_imported return false, not an
error, whenever the ledger query itself fails: a file whose status is
unknown is treated as not yet imported, so it is re-attempted rather than
silently skipped. -/
theorem is_file_imported_false_on_ledger_error
    (err : String) (filename : String) :
    is_file_imported (Except.error err) filename = false := rfl

/-- Witness for C9: a concrete failed ledger read. -/
theorem is_file_imported_on_error_witness :
    is_file_imported (Except.error "connection refused") "a.parquet" = false :=
  is_file_imported_false_on_ledger_error "connection refused" "a.parquet"

/-- C6: the source-to-destination type mapping of SchemaMapper.to_postgres
is total with a text fallback: every source type whose uppercasing is
neither in the DUCK_TO_PG table nor a parameterized DECIMAL/NUMERIC maps
to TEXT without error, while recognized types follow the fixed lookup
table and parameterized decimals pass through with precision and scale
intact. -/
theorem to_postgres_total_with_text_fallback :
    (∀ s : String,
        SchemaMapper.DUCK_TO_PG.lookup (pyUpper s) = none →
        pyStartsWith (pyUpper s) "DECIMAL(" = false →
        pyStartsWith (pyUpper s) "NUMERIC(" = false →
        SchemaMapper.to_postgres s = "TEXT")
    ∧ SchemaMapper.to_postgres "boolean" = "BOOLEAN"
    ∧ SchemaMapper.to_postgres "SMALLINT" = "SMALLINT"
    ∧ SchemaMapper.to_postgres "INTEGER" = "INTEGER"
    ∧ SchemaMapper.to_postgres "BIGINT" = "BIGINT"
    ∧ SchemaMapper.to_postgres "DOUBLE" = "DOUBLE PRECISION"
    ∧ SchemaMapper.to_postgres "TIMESTAMPTZ" = "TIMESTAMPTZ"
    ∧ SchemaMapper.to_postgres "DECIMAL(10,2)" = "DECIMAL(10,2)"
    ∧ SchemaMapper.to_postgres "NUMERIC(20,5)" = "NUMERIC(20,5)" := by
  refine ⟨?_, by decide, by decide, by decide, by decide, by decide,
    by decide, by decide, by decide⟩
  intro s hmiss hdec hnum
  simp [SchemaMapper.to_postgres, hmiss, hdec, hnum]

/-- Witness for the fallback branch of C6: GEOMETRY is not a recognized
source type and reconciles to a TEXT column. -/
theorem to_postgres_fallback_witness :
    (SchemaMapper.DUCK_TO_PG.lookup (pyUpper "GEOMETRY") = none
      ∧ pyStartsWith (pyUpper "GEOMETRY") "DECIMAL(" = false
      ∧ pyStartsWith (pyUpper "GEOMETRY") "NUMERIC(" = false)
    ∧ SchemaMapper.to_postgres "GEOMETRY" = "TEXT" :=
  ⟨⟨by decide, by decide, by decide⟩,
    to_postgres_total_with_text_fallback.1 "GEOMETRY"
      (by decide) (by decide) (by decide)⟩

/-- C5: on the COPY append path of PostgresWriter.copy_chunk, a missing
or null source cell is encoded by to_csv as the empty field and decoded
by COPY ... NULL as a relational NULL: the stored cell is none, never a
non-NULL value such as the empty string or a zero; the same holds at any
position of a row. -/
theorem copy_chunk_null_round_trip (c : Option CopyCsv.Cell)
    (h : c = none) :
    CopyCsv.copy_parse_field (CopyCsv.csv_field c) = none
    ∧ (∀ s : String, CopyCsv.copy_parse_field (CopyCsv.csv_field c) ≠ some s)
    ∧ ∀ (row : List (Option CopyCsv.Cell)) (i : Nat),
        row[i]? = some none →
        (CopyCsv.copy_row row)[i]? = some none := by
  subst h
  refine ⟨by decide, ?_, ?_⟩
  · intro s hs
    simp [CopyCsv.csv_field, CopyCsv.copy_parse_field] at hs
  · intro row i hi
    simp [CopyCsv.copy_row, List.getElem?_map, hi,
      CopyCsv.csv_field, CopyCsv.copy_parse_field]

/-- Witness for C5: the null cell itself. -/
theorem copy_chunk_null_round_trip_witness :
    (none : Option CopyCsv.Cell) = none
    ∧ (CopyCsv.copy_parse_field (CopyCsv.csv_field (none : Option CopyCsv.Cell)) = none
        ∧ (∀ s : String,
            CopyCsv.copy_parse_field (CopyCsv.csv_field (none : Option CopyCsv.Cell))
              ≠ some s)
        ∧ ∀ (row : List (Option CopyCsv.Cell)) (i : Nat),
            row[i]? = some none →
            (CopyCsv.copy_row row)[i]? = some none) :=
  ⟨rfl, copy_chunk_null_round_trip none rfl⟩

theorem import_all_fresh {Row : Type} :
    ∀ (files : List (SourceFile Row)) (st : DBState Row),
      (files.map SourceFile.name).Nodup →
      (∀ f ∈ files, is_file_imported (Except.ok st.import_log) f.name = false) →
      (∀ f ∈ files, f.load_failure = none) →
      import_all_parquet_files st files =
        ({ yellow_taxi_trips :=
             st.yellow_taxi_trips ++ (files.map SourceFile.rows).flatten,
           import_log :=
             st.import_log ++
               files.map (fun f => ⟨f.name, f.rows.length⟩) },
         files.length) := by
  intro files
  induction files with
  | nil => intro st _ _ _; simp [import_all_parquet_files]
  | cons f fs ih =>
    intro st hnodup hfresh hok
    have hfreshf : is_file_imported (Except.ok st.import_log) f.name = false :=
      hfresh f (List.mem_cons_self f fs)
    have hokf : f.load_failure = none := hok f (List.mem_cons_self f fs)
    have hsucc := import_parquet_success st f hfreshf hokf
    have hnotin : f.name ∉ fs.map SourceFile.name :=
      (List.nodup_cons.mp (by simpa using hnodup)).1
    have hfresh2 : ∀ g ∈ fs,
        is_file_imported
          (Except.ok (st.import_log ++ [⟨f.name, f.rows.length⟩])) g.name
          = false := by
      intro g hg
      rw [is_file_imported_append]
      have h1 : is_file_imported (Except.ok st.import_log) g.name = false :=
        hfresh g (List.mem_cons_of_mem f hg)
      have hne : f.name ≠ g.name := by
        intro he
        exact hnotin (he ▸ List.mem_map_of_mem SourceFile.name hg)
      have h2 : is_file_imported
          (Except.ok [(⟨f.name, f.rows.length⟩ : LedgerEntry)]) g.name
          = false := by
        simp [is_file_imported, hne]
      rw [h1, h2]
      rfl
    have ihr := ih { yellow_taxi_trips := st.yellow_taxi_trips ++ f.rows,
                     import_log := st.import_log ++ [⟨f.name, f.rows.length⟩] }
      (List.nodup_cons.mp (by simpa using hnodup)).2 hfresh2
      (fun g hg => hok g (List.mem_cons_of_mem f hg))
    show (let was := is_file_imported (Except.ok st.import_log) f.name
          let res := import_parquet st f
          let rest := import_all_parquet_files res.1 fs
          (rest.1, (if res.2 && !was then 1 else 0) + rest.2)) = _
    simp only [hfreshf, hsucc, ihr]
    simp [List.append_assoc, Nat.add_comm]

theorem import_all_skips_all {Row : Type} :
    ∀ (files : List (SourceFile Row)) (st : DBState Row),
      (∀ f ∈ files, is_file_imported (Except.ok st.import_log) f.name = true) →
      import_all_parquet_files st files = (st, 0) := by
  intro files
  induction files with
  | nil => intro st _; rfl
  | cons f fs ih =>
    intro st himp
    have hskip := import_parquet_skip st f (himp f (List.mem_cons_self f fs))
    have ihr := ih st (fun g hg => himp g (List.mem_cons_of_mem f hg))
    show (let was := is_file_imported (Except.ok st.import_log) f.name
          let res := import_parquet st f
          let rest := import_all_parquet_files res.1 fs
          (rest.1, (if res.2 && !was then 1 else 0) + rest.2)) = _
    simp only [hskip, ihr, himp f (List.mem_cons_self f fs)]
    simp

/-- C2: running the full import twice over the same static, previously
unseen set of source files (distinct names, all loadable) leaves a ledger
with exactly one entry per file, and the second run returns the state
untouched with zero newly imported files — so the destination row count
is unchanged by the second run.  In particular the skip rule holds in
general: a file already present in the ledger makes import_parquet return
success immediately with the database state untouched. -/
theorem full_run_idempotent {Row : Type} (st : DBState Row)
    (files : List (SourceFile Row))
    (hnodup : (files.map SourceFile.name).Nodup)
    (hfresh : ∀ f ∈ files,
      is_file_imported (Except.ok st.import_log) f.name = false)
    (hok : ∀ f ∈ files, f.load_failure = none) :
    (∀ f ∈ files,
      ((import_all_parquet_files st files).1.import_log.filter
        (fun e => e.file_name == f.name)).length = 1)
    ∧ import_all_parquet_files (import_all_parquet_files st files).1 files
        = ((import_all_parquet_files st files).1, 0)
    ∧ ∀ (s : DBState Row) (g : SourceFile Row),
        is_file_imported (Except.ok s.import_log) g.name = true →
        import_parquet s g = (s, true) := by
  have hchar := import_all_fresh files st hnodup hfresh hok
  refine ⟨?_, ?_, fun s g h => import_parquet_skip s g h⟩
  · intro f hf
    rw [hchar]
    simp only [List.filter_append]
    have hleft : st.import_log.filter (fun e => e.file_name == f.name) = [] := by
      rw [List.filter_eq_nil_iff]
      intro e he hbeq
      have : st.import_log.any (fun e => e.file_name == f.name) = true :=
        List.any_eq_true.mpr ⟨e, he, hbeq⟩
      rw [show st.import_log.any (fun e => e.file_name == f.name)
            = is_file_imported (Except.ok st.import_log) f.name from rfl,
        hfresh f hf] at this
      exact Bool.false_ne_true this
    rw [hleft]
    rw [List.filter_map]
    simp only [List.nil_append, List.length_map, List.length_append]
    have hcount : (List.filter
        ((fun e => e.file_name == f.name) ∘
          (fun f => (⟨f.name, f.rows.length⟩ : LedgerEntry))) files).length
        = List.count f.name (files.map SourceFile.name) := by
      rw [List.count_eq_countP, List.countP_map, List.countP_eq_length_filter]
      rfl
    rw [hcount]
    exact List.count_eq_one_of_mem hnodup (List.mem_map_of_mem SourceFile.name hf)
  · apply import_all_skips_all
    intro f hf
    rw [hchar]
    simp only
    rw [is_file_imported_append]
    have : is_file_imported
        (Except.ok (files.map fun f => (⟨f.name, f.rows.length⟩ : LedgerEntry)))
        f.name = true := by
      apply List.any_eq_true.mpr
      exact ⟨⟨f.name, f.rows.length⟩,
        List.mem_map_of_mem (fun f => (⟨f.name, f.rows.length⟩ : LedgerEntry)) hf,
        by simp⟩
    rw [this, Bool.or_true]

/-- Witness for C2: two fresh loadable files imported twice over an empty
database. -/
theorem full_run_idempotent_witness :
    (((([⟨"a", [1], none⟩, ⟨"b", [2, 3], none⟩] :
          List (SourceFile Nat)).map SourceFile.name).Nodup)
      ∧ (∀ f ∈ ([⟨"a", [1], none⟩, ⟨"b", [2, 3], none⟩] :
            List (SourceFile Nat)),
          is_file_imported (Except.ok ([] : List LedgerEntry)) f.name = false)
      ∧ (∀ f ∈ ([⟨"a", [1], none⟩, ⟨"b", [2, 3], none⟩] :
            List (SourceFile Nat)), f.load_failure = none))
    ∧ ((∀ f ∈ ([⟨"a", [1], none⟩, ⟨"b", [2, 3], none⟩] :
          List (SourceFile Nat)),
        ((import_all_parquet_files (⟨[], []⟩ : DBState Nat)
            [⟨"a", [1], none⟩, ⟨"b", [2, 3], none⟩]).1.import_log.filter
          (fun e => e.file_name == f.name)).length = 1)
      ∧ import_all_parquet_files
          (import_all_parquet_files (⟨[], []⟩ : DBState Nat)
            [⟨"a", [1], none⟩, ⟨"b", [2, 3], none⟩]).1
          [⟨"a", [1], none⟩, ⟨"b", [2, 3], none⟩]
        = ((import_all_parquet_files (⟨[], []⟩ : DBState Nat)
            [⟨"a", [1], none⟩, ⟨"b", [2, 3], none⟩]).1, 0)
      ∧ ∀ (s : DBState Nat) (g : SourceFile Nat),
          is_file_imported (Except.ok s.import_log) g.name = true →
          import_parquet s g = (s, true)) :=
  ⟨⟨by decide, by decide, by decide⟩,
    full_run_idempotent ⟨[], []⟩ [⟨"a", [1], none⟩, ⟨"b", [2, 3], none⟩]
      (by decide) (by decide) (by decide)⟩

/-- C1 counterexample: on the chunked bulk-transfer path the per-file
unit is not atomic.  Loading a two-row source with chunk size 1, where
the COPY of the second chunk raises, ends with the first chunk already
committed: the target table holds one row where the pre-call table held
none, so a failure mid-transfer does not roll the unit back completely
(each copy_chunk commits on its own connection). -/
theorem chunked_transfer_failure_leaves_partial_rows :
    (ChrisLoader.load_table ([10, 20] : List Nat) 1 none (some 1)
        ⟨[], []⟩).2 = false
    ∧ (ChrisLoader.load_table ([10, 20] : List Nat) 1 none (some 1)
        ⟨[], []⟩).1.table = [10]
    ∧ [10] ≠ ([] : List Nat) := by
  refine ⟨?_, ?_, by decide⟩ <;>
    simp [ChrisLoader.load_table, ChrisLoader.load_loop,
      ChrisLoader.read_chunk, ChrisLoader.copy_chunk]

/-- C1 amended: on the single-file import paths
(PostgresImporter.import_parquet and DuckDBImporter.import_parquet) the
transfer for one file plus its ledger insert is one atomic unit, and any
failure mid-transfer rolls it back completely: the target table and the
ledger are exactly their pre-call values and the file remains eligible
for a clean retry.  A successful import commits the data rows and the
ledger entry together.  The chunked bulk-transfer path of
Loader.load_table, by contrast, commits each chunk in its own
transaction and keeps no ledger, so it does not share this guarantee. -/
theorem import_parquet_is_atomic {Row : Type} (st : DBState Row)
    (f : SourceFile Row)
    (h : (import_parquet st f).2 = false) :
    (import_parquet st f).1 = st
    ∧ (import_parquet st f).1.yellow_taxi_trips = st.yellow_taxi_trips
    ∧ (import_parquet st f).1.import_log = st.import_log
    ∧ is_file_imported (Except.ok (import_parquet st f).1.import_log) f.name
        = is_file_imported (Except.ok st.import_log) f.name := by
  have hst : (import_parquet st f).1 = st := by
    by_cases himp : is_file_imported (Except.ok st.import_log) f.name
    · simp [import_parquet, himp] at h
    · cases hf : f.load_failure with
      | none => simp [import_parquet, himp, hf] at h
      | some e => simp [import_parquet, himp, hf]
  exact ⟨hst, by rw [hst], by rw [hst], by rw [hst]⟩

/-- Witness for C1 (amended): a fresh single-row file whose insert raises
a destination-write error leaves the empty database exactly empty. -/
theorem import_parquet_is_atomic_witness :
    (import_parquet (⟨[], []⟩ : DBState Nat)
        ⟨"f.parquet", [1], some ErrKind.destWrite⟩).2 = false
    ∧ ((import_parquet (⟨[], []⟩ : DBState Nat)
          ⟨"f.parquet", [1], some ErrKind.destWrite⟩).1 = ⟨[], []⟩
        ∧ (import_parquet (⟨[], []⟩ : DBState Nat)
            ⟨"f.parquet", [1], some ErrKind.destWrite⟩).1.yellow_taxi_trips = []
        ∧ (import_parquet (⟨[], []⟩ : DBState Nat)
            ⟨"f.parquet", [1], some ErrKind.destWrite⟩).1.import_log = []
        ∧ is_file_imported
            (Except.ok (import_parquet (⟨[], []⟩ : DBState Nat)
              ⟨"f.parquet", [1], some ErrKind.destWrite⟩).1.import_log)
            "f.parquet"
          = is_file_imported (Except.ok ([] : List LedgerEntry)) "f.parquet") :=
  ⟨by decide, import_parquet_is_atomic ⟨[], []⟩
    ⟨"f.parquet", [1], some ErrKind.destWrite⟩ (by decide)⟩

/-- C3: for a successfully imported file the ledger records exactly the
destination's row-count delta (count after the transfer minus count
before it), and importing a file of N rows records N and grows the
destination by exactly N rows. -/
theorem rows_imported_is_destination_delta {Row : Type} (st : DBState Row)
    (f : SourceFile Row)
    (hfresh : is_file_imported (Except.ok st.import_log) f.name = false)
    (hok : f.load_failure = none) :
    (import_parquet st f).2 = true
    ∧ (import_parquet st f).1.import_log =
        st.import_log ++
          [⟨f.name,
            (import_parquet st f).1.yellow_taxi_trips.length
              - st.yellow_taxi_trips.length⟩]
    ∧ (import_parquet st f).1.yellow_taxi_trips.length
        = st.yellow_taxi_trips.length + f.rows.length
    ∧ (import_parquet st f).1.yellow_taxi_trips.length
        - st.yellow_taxi_trips.length = f.rows.length := by
  rw [import_parquet_success st f hfresh hok]
  simp [List.length_append]

/-- Witness for C3: a three-row file imported into an empty destination
records 3 in the ledger and grows the table by 3. -/
theorem rows_imported_is_destination_delta_witness :
    (is_file_imported (Except.ok ([] : List LedgerEntry)) "a.parquet" = false
      ∧ (⟨"a.parquet", [1, 2, 3], none⟩ : SourceFile Nat).load_failure = none)
    ∧ ((import_parquet (⟨[], []⟩ : DBState Nat)
          ⟨"a.parquet", [1, 2, 3], none⟩).2 = true
        ∧ (import_parquet (⟨[], []⟩ : DBState Nat)
            ⟨"a.parquet", [1, 2, 3], none⟩).1.import_log =
            [] ++ [⟨"a.parquet",
              (import_parquet (⟨[], []⟩ : DBState Nat)
                ⟨"a.parquet", [1, 2, 3], none⟩).1.yellow_taxi_trips.length
                - ([] : List Nat).length⟩]
        ∧ (import_parquet (⟨[], []⟩ : DBState Nat)
            ⟨"a.parquet", [1, 2, 3], none⟩).1.yellow_taxi_trips.length
            = ([] : List Nat).length + [1, 2, 3].length
        ∧ (import_parquet (⟨[], []⟩ : DBState Nat)
            ⟨"a.parquet", [1, 2, 3], none⟩).1.yellow_taxi_trips.length
            - ([] : List Nat).length = [1, 2, 3].length) :=
  ⟨⟨by decide, by decide⟩,
    rows_imported_is_destination_delta ⟨[], []⟩
      ⟨"a.parquet", [1, 2, 3], none⟩ (by decide) (by decide)⟩

/-- C4 counterexample: the orchestrator does not report a failed file
with its error kind.  A three-file batch where file 2 fails with a schema
mismatch produces exactly the same final database state and exactly the
same return value (the bare count 2 of newly imported files) as the same
batch where file 2 fails with a source-read error: no output of the batch
importer distinguishes the error kind, and no
SchemaMismatchError value exists anywhere in the repository. -/
theorem batch_failure_error_kind_not_reported :
    import_all_parquet_files (⟨[], []⟩ : DBState Nat)
        [⟨"file1", [1, 2], none⟩,
         ⟨"file2", [3, 4], some ErrKind.schemaMismatch⟩,
         ⟨"file3", [5], none⟩]
      = import_all_parquet_files (⟨[], []⟩ : DBState Nat)
        [⟨"file1", [1, 2], none⟩,
         ⟨"file2", [3, 4], some ErrKind.sourceRead⟩,
         ⟨"file3", [5], none⟩] := by decide

/-- C4 amended: in a multi-file run one file's load failure never aborts
the batch.  In the 3-file scenario where file 2 raises a schema mismatch,
files 1 and 3 end up recorded as imported, file 2 is absent from the
ledger, file 2's own import returns failure, and the run's only report is
the count 2 of newly imported files — there is no per-file error-kind
report such as SchemaMismatchError. -/
theorem batch_continues_past_failure :
    (import_all_parquet_files (⟨[], []⟩ : DBState Nat)
        [⟨"file1", [1, 2], none⟩,
         ⟨"file2", [3, 4], some ErrKind.schemaMismatch⟩,
         ⟨"file3", [5], none⟩]).2 = 2
    ∧ (import_all_parquet_files (⟨[], []⟩ : DBState Nat)
        [⟨"file1", [1, 2], none⟩,
         ⟨"file2", [3, 4], some ErrKind.schemaMismatch⟩,
         ⟨"file3", [5], none⟩]).1.import_log.map LedgerEntry.file_name
        = ["file1", "file3"]
    ∧ is_file_imported
        (Except.ok (import_all_parquet_files (⟨[], []⟩ : DBState Nat)
          [⟨"file1", [1, 2], none⟩,
           ⟨"file2", [3, 4], some ErrKind.schemaMismatch⟩,
           ⟨"file3", [5], none⟩]).1.import_log) "file2" = false
    ∧ (import_parquet (⟨[1, 2], [⟨"file1", 2⟩]⟩ : DBState Nat)
        ⟨"file2", [3, 4], some ErrKind.schemaMismatch⟩).2 = false
    ∧ (import_all_parquet_files (⟨[], []⟩ : DBState Nat)
        [⟨"file1", [1, 2], none⟩,
         ⟨"file2", [3, 4], some ErrKind.schemaMismatch⟩,
         ⟨"file3", [5], none⟩]).1.yellow_taxi_trips = [1, 2, 5] := by
  decide

/-- C8 counterexample: the pipeline run's summary does not separate
per-file outcomes.  With the same download environment, a run whose only
source file imports successfully and a run whose only source file fails
with a schema mismatch return the identical summary, which consists of a
fixed message and the downloaded-file list only — it has no
files_newly_imported, files_skipped or files_failed parts. -/
theorem run_pipeline_summary_ignores_import_outcomes :
    (run_pipeline ⟨fun _ => false, fun m => m == 1⟩ (⟨[], []⟩ : DBState Nat)
        [⟨"f", [1], none⟩]).1
      = (run_pipeline ⟨fun _ => false, fun m => m == 1⟩ (⟨[], []⟩ : DBState Nat)
        [⟨"f", [1], some ErrKind.schemaMismatch⟩]).1
    ∧ (run_pipeline ⟨fun _ => false, fun m => m == 1⟩ (⟨[], []⟩ : DBState Nat)
        [⟨"f", [1], some ErrKind.schemaMismatch⟩]).1
      = ⟨"Pipeline executed", ["yellow_tripdata_2025-01.parquet"]⟩ := by
  constructor <;> decide

/-- C8 amended: a full pipeline run answers with a summary holding only a
fixed message and the list of files the downloader obtained; the
per-file import outcomes are not part of it (the summary is independent of the
database state and of the source files and their outcomes, and the count
returned by import_all_parquet_files is discarded by the route). -/
theorem run_pipeline_summary_shape {Row : Type}
    (env : NYCTaxiDataDownloader.DownloadEnv)
    (st st2 : DBState Row) (files files2 : List (SourceFile Row)) :
    (run_pipeline env st files).1 = (run_pipeline env st2 files2).1
    ∧ (run_pipeline env st files).1.message = "Pipeline executed"
    ∧ (run_pipeline env st files).1.downloaded_files
        = NYCTaxiDataDownloader.download_all_available env
    ∧ (run_pipeline env st files).2 = (import_all_parquet_files st files).1 :=
  ⟨rfl, rfl, rfl, rfl⟩

/-- Witness for C8 (amended): two concrete runs, one of a fresh loadable
file and one of an empty batch over a non-empty database, share the same
summary. -/
theorem run_pipeline_summary_shape_witness :
    (run_pipeline ⟨fun _ => false, fun m => m == 1⟩ (⟨[], []⟩ : DBState Nat)
        [⟨"f", [1], none⟩]).1
      = (run_pipeline ⟨fun _ => false, fun m => m == 1⟩
          (⟨[7], []⟩ : DBState Nat) []).1
    ∧ (run_pipeline ⟨fun _ => false, fun m => m == 1⟩ (⟨[], []⟩ : DBState Nat)
        [⟨"f", [1], none⟩]).1.message = "Pipeline executed"
    ∧ (run_pipeline ⟨fun _ => false, fun m => m == 1⟩ (⟨[], []⟩ : DBState Nat)
        [⟨"f", [1], none⟩]).1.downloaded_files
      = NYCTaxiDataDownloader.download_all_available
          ⟨fun _ => false, fun m => m == 1⟩
    ∧ (run_pipeline ⟨fun _ => false, fun m => m == 1⟩ (⟨[], []⟩ : DBState Nat)
        [⟨"f", [1], none⟩]).2
      = (import_all_parquet_files (⟨[], []⟩ : DBState Nat)
          [⟨"f", [1], none⟩]).1 :=
  run_pipeline_summary_shape ⟨fun _ => false, fun m => m == 1⟩
    ⟨[], []⟩ ⟨[7], []⟩ [⟨"f", [1], none⟩] []

/-- C7: the chunked transfer loop of Loader.load_table is insensitive to
the chunk size: for any two positive chunk sizes (no row cap, no
failure), loading the same source produces identical results; the final
destination table is the initial table followed by the source's rows in
order (the concatenation of the chunks read at successive offsets), the
loader leaves the ledger untouched, and the load completes. -/
theorem load_table_chunk_size_independent {Row : Type} (source : List Row)
    (st : ChrisLoader.PGState Row) (cs1 cs2 : Nat)
    (h1 : 0 < cs1) (h2 : 0 < cs2) :
    ChrisLoader.load_table source cs1 none none st
      = ChrisLoader.load_table source cs2 none none st
    ∧ (ChrisLoader.load_table source cs1 none none st).1.table
        = st.table ++ source
    ∧ (ChrisLoader.load_table source cs1 none none st).1.import_log
        = st.import_log
    ∧ (ChrisLoader.load_table source cs1 none none st).2 = true := by
  have e1 := load_loop_full source cs1 h1 source.length 0 (by omega) 0 0 st
  have e2 := load_loop_full source cs2 h2 source.length 0 (by omega) 0 0 st
  rw [ChrisLoader.load_table, ChrisLoader.load_table, e1, e2]
  simp

/-- Witness for C7: a three-row source loaded with chunk sizes 1 and 2. -/
theorem load_table_chunk_size_independent_witness :
    (0 < 1 ∧ 0 < 2)
    ∧ (ChrisLoader.load_table ([1, 2, 3] : List Nat) 1 none none ⟨[], []⟩
        = ChrisLoader.load_table ([1, 2, 3] : List Nat) 2 none none ⟨[], []⟩
      ∧ (ChrisLoader.load_table ([1, 2, 3] : List Nat) 1 none none
          ⟨[], []⟩).1.table = [] ++ [1, 2, 3]
      ∧ (ChrisLoader.load_table ([1, 2, 3] : List Nat) 1 none none
          ⟨[], []⟩).1.import_log = []
      ∧ (ChrisLoader.load_table ([1, 2, 3] : List Nat) 1 none none
          ⟨[], []⟩).2 = true) :=
  ⟨⟨by decide, by decide⟩,
    load_table_chunk_size_independent [1, 2, 3] ⟨[], []⟩ 1 2
      (by decide) (by decide)⟩

theorem apply_trip_update_respects (t : TaxiTripService.YellowTaxiTrip)
    (p : TaxiTripService.TaxiTripUpdate) :
    TaxiTripService.update_respects_payload t
      (TaxiTripService.apply_trip_update t p) p := by
  unfold TaxiTripService.update_respects_payload
  simp only [TaxiTripService.apply_trip_update]
  repeat' apply And.intro
  all_goals first
    | trivial
    | (intro h; rw [h]; rfl)
    | (intro v h; rw [h]; rfl)

theorem replace_trip_frame (db : List TaxiTripService.YellowTaxiTrip)
    (tid : Int) (t2 : TaxiTripService.YellowTaxiTrip) :
    List.Forall₂ (fun old new => (old.id == tid) = false → new = old)
      db (TaxiTripService.replace_trip db tid t2) := by
  induction db with
  | nil => exact List.Forall₂.nil
  | cons t ts ih =>
    unfold TaxiTripService.replace_trip
    by_cases h : (t.id == tid) = true
    · rw [if_pos h]
      refine List.Forall₂.cons (fun hf => ?_) ?_
      · rw [hf] at h
        exact absurd h Bool.false_ne_true
      · exact List.forall₂_same.mpr (fun x _ _ => rfl)
    · rw [if_neg h]
      exact List.Forall₂.cons (fun _ => rfl) ih

/-- C10: TaxiTripService.update_trip modifies only the fields actually
present in the update payload — the stored row keeps its key and the
previous value of every unset field, takes the payload value of every set
field, and every other row of the table is unchanged — and when no trip
with the given id exists, it returns None and leaves the database
entirely unchanged. -/
theorem update_trip_frame (db : List TaxiTripService.YellowTaxiTrip)
    (tid : Int) (p : TaxiTripService.TaxiTripUpdate) :
    (TaxiTripService.find_trip db tid = none →
      TaxiTripService.update_trip db tid p = (none, db))
    ∧ ∀ t, TaxiTripService.find_trip db tid = some t →
        (TaxiTripService.update_trip db tid p).1
            = some (TaxiTripService.apply_trip_update t p)
        ∧ TaxiTripService.update_respects_payload t
            (TaxiTripService.apply_trip_update t p) p
        ∧ List.Forall₂ (fun old new => (old.id == tid) = false → new = old)
            db (TaxiTripService.update_trip db tid p).2 := by
  constructor
  · intro h
    rw [TaxiTripService.update_trip, h]
  · intro t h
    refine ⟨?_, apply_trip_update_respects t p, ?_⟩
    · rw [TaxiTripService.update_trip, h]
    · rw [TaxiTripService.update_trip, h]
      exact replace_trip_frame db tid _

/-- Witness for C10: updating the sample trip's fare (and nulling its
flag) through a payload that leaves the other eighteen fields unset. -/
theorem update_trip_frame_witness :
    TaxiTripService.find_trip [TaxiTripService.sampleTrip] 1
        = some TaxiTripService.sampleTrip
    ∧ ((TaxiTripService.update_trip [TaxiTripService.sampleTrip] 1
          TaxiTripService.sampleUpdate).1
        = some (TaxiTripService.apply_trip_update TaxiTripService.sampleTrip
            TaxiTripService.sampleUpdate)
      ∧ TaxiTripService.update_respects_payload TaxiTripService.sampleTrip
          (TaxiTripService.apply_trip_update TaxiTripService.sampleTrip
            TaxiTripService.sampleUpdate)
          TaxiTripService.sampleUpdate
      ∧ List.Forall₂ (fun old new => (old.id == 1) = false → new = old)
          [TaxiTripService.sampleTrip]
          (TaxiTripService.update_trip [TaxiTripService.sampleTrip] 1
            TaxiTripService.sampleUpdate).2) :=
  ⟨rfl, (update_trip_frame [TaxiTripService.sampleTrip] 1
      TaxiTripService.sampleUpdate).2 TaxiTripService.sampleTrip rfl⟩
